import Mathlib

/-!
# Verification of the Retro CPU/GPU temperature display (`src/release/main.py`)

Shallow embedding of the MicroPython TM1637 driver and its rendering /
input-loop logic, with theorems checking the natural-language specification
against the code.

Modelling conventions:

* Pin writes and delays are recorded as events in a trace (`PinEv`); the
  byte-level bus operations of `TM1637.write` are recorded as `BusOp`s.
* Python `float` temperatures are modelled as exact rationals `ℚ`; Python's
  `round` (banker's rounding) is `pyRound`.
* Python list indexing `DIGITS[i]` is fallible (`IndexError`), modelled by
  `Option`: a `none` result of a rendering function models the exception
  propagating out of that call.
* The main loop body is a pure step function over an explicit state
  (`LoopState`), parameterised by an abstract field parser standing for
  Python's `float` constructor, and producing the list of display writes and
  sleeps performed in one iteration.
-/

namespace Retro

/-! ## Pin-level protocol transport (`TM1637._write_byte`, main.py lines 23–36) -/

/-- One observable action on the two control pins: a clock-pin write, a
data-pin write, or a microsecond delay. -/
inductive PinEv : Type where
  | clk : ℕ → PinEv
  | dio : ℕ → PinEv
  | delay : ℕ → PinEv
deriving DecidableEq, Repr

/-- The events emitted by the first `k` iterations of the
`for i in range(8)` loop of `_write_byte` (main.py lines 24–30): for bit `i`,
lower clock, delay 2 µs, set data to bit `i` of `b`, delay 2 µs, raise
clock, delay 2 µs. -/
def writeByteLoop (b : ℕ) : ℕ → List PinEv
  | 0 => []
  | k + 1 =>
      writeByteLoop b k ++
        [PinEv.clk 0, PinEv.delay 2, PinEv.dio ((b >>> k) &&& 1),
         PinEv.delay 2, PinEv.clk 1, PinEv.delay 2]

/-- The full event trace of `TM1637._write_byte(b)` (main.py lines 23–36):
the 8 data bits followed by the extra acknowledge clock pulse
(lower, delay, raise, delay, lower, delay) of lines 31–36. -/
def write_byte_trace (b : ℕ) : List PinEv :=
  writeByteLoop b 8 ++
    [PinEv.clk 0, PinEv.delay 2, PinEv.clk 1, PinEv.delay 2,
     PinEv.clk 0, PinEv.delay 2]

/-- Spec-side description of one transmitted bit, following the
specification's words: "lower clock, delay 2µs, set data to bit value,
delay 2µs, raise clock, delay 2µs", bits taken least-significant first. -/
def specBitEvents (b i : ℕ) : List PinEv :=
  [PinEv.clk 0, PinEv.delay 2, PinEv.dio ((b >>> i) &&& 1),
   PinEv.delay 2, PinEv.clk 1, PinEv.delay 2]

/-- Spec-side description of the whole `write_byte` call: the 8 bit cycles
least-significant-bit first, then one additional clock pulse. -/
def specWriteByte (b : ℕ) : List PinEv :=
  (List.range 8).flatMap (specBitEvents b) ++
    [PinEv.clk 0, PinEv.delay 2, PinEv.clk 1, PinEv.delay 2,
     PinEv.clk 0, PinEv.delay 2]

/-- The values written to the data pin, in order of occurrence. -/
def dioValues (l : List PinEv) : List ℕ :=
  l.filterMap fun e =>
    match e with
    | PinEv.dio v => some v
    | _ => none

/-- Number of rising edges seen on the clock pin along a trace, starting
from an arbitrary (possibly unknown) initial clock level `c`. -/
def clkRises : Option ℕ → List PinEv → ℕ
  | _, [] => 0
  | c, PinEv.clk v :: rest =>
      (if v = 1 ∧ c ≠ some 1 then 1 else 0) + clkRises (some v) rest
  | c, _ :: rest => clkRises c rest

/-- Reassemble a number from its bit list, least-significant bit first. -/
def decodeLSB : List ℕ → ℕ
  | [] => 0
  | bit :: rest => bit + 2 * decodeLSB rest

/-- True of events that write the clock pin high. -/
def isClkHigh : PinEv → Bool
  | PinEv.clk 1 => true
  | _ => false

/-- True of events that write the data pin high. -/
def isDioHigh : PinEv → Bool
  | PinEv.dio 1 => true
  | _ => false

theorem write_byte_trace_eq_spec (b : ℕ) :
    write_byte_trace b = specWriteByte b := by
  rfl

theorem dioValues_write_byte (b : ℕ) :
    dioValues (write_byte_trace b) =
      (List.range 8).map fun i => (b >>> i) &&& 1 := by
  rfl

theorem decode_write_byte (b : ℕ) (h : b < 256) :
    decodeLSB (dioValues (write_byte_trace b)) = b := by
  show decodeLSB [b >>> 0 &&& 1, b >>> 1 &&& 1, b >>> 2 &&& 1, b >>> 3 &&& 1,
      b >>> 4 &&& 1, b >>> 5 &&& 1, b >>> 6 &&& 1, b >>> 7 &&& 1] = b
  simp only [decodeLSB, Nat.shiftRight_eq_div_pow, Nat.and_one_is_mod]
  omega

theorem clkRises_write_byte (b : ℕ) (c : Option ℕ) :
    clkRises c (write_byte_trace b) = 9 := by
  have h1 : ∀ v rest, clkRises (some 0) (PinEv.clk v :: rest) =
      (if v = 1 then 1 else 0) + clkRises (some v) rest := by
    intro v rest
    simp [clkRises]
  show clkRises c (PinEv.clk 0 :: _) = 9
  simp [clkRises]

/-- C1. `_write_byte(b)` transmits the 8 bits of `b` least-significant-bit
first, each bit with exactly the sequence lower clock / delay 2µs / set data
to the bit value / delay 2µs / raise clock / delay 2µs; after the 8 bits it
performs one extra clock pulse (lower, delay, raise, delay, lower, delay)
that never touches the data pin, so the call produces exactly 9 rising clock
edges from any initial clock level; and for `b = 0x01` the data pin is
driven to 1 before the first rising clock edge. -/
theorem write_byte_spec_ok (b : ℕ) (hb : b < 256) :
    write_byte_trace b = specWriteByte b ∧
    dioValues (write_byte_trace b) =
      ((List.range 8).map fun i => (b >>> i) &&& 1) ∧
    decodeLSB (dioValues (write_byte_trace b)) = b ∧
    (∀ c, clkRises c (write_byte_trace b) = 9) ∧
    (write_byte_trace b).drop 48 =
      [PinEv.clk 0, PinEv.delay 2, PinEv.clk 1, PinEv.delay 2,
       PinEv.clk 0, PinEv.delay 2] ∧
    dioValues ((write_byte_trace b).drop 48) = [] ∧
    (b = 1 →
      (write_byte_trace b).findIdx isDioHigh <
        (write_byte_trace b).findIdx isClkHigh) := by
  refine ⟨write_byte_trace_eq_spec b, dioValues_write_byte b,
    decode_write_byte b hb, clkRises_write_byte b, rfl, rfl, ?_⟩
  rintro rfl
  decide

/-- Witness for `write_byte_spec_ok` at the concrete byte `0x01`. -/
theorem write_byte_spec_ok_witness :
    (1 : ℕ) < 256 ∧
      (decodeLSB (dioValues (write_byte_trace 1)) = 1 ∧
        clkRises none (write_byte_trace 1) = 9 ∧
        (write_byte_trace 1).findIdx isDioHigh <
          (write_byte_trace 1).findIdx isClkHigh) := by
  have h := write_byte_spec_ok 1 (by decide)
  exact ⟨by decide, h.2.2.1, h.2.2.2.1 none, h.2.2.2.2.2.2 rfl⟩

/-! ## Byte-level display driver (`TM1637.write`, main.py lines 38–49) -/

/-- One operation on the two-wire bus, as issued by `TM1637.write`: a start
condition (`_start`), a stop condition (`_stop`), or a byte write
(`_write_byte b`). -/
inductive BusOp : Type where
  | start : BusOp
  | stop : BusOp
  | byte : ℕ → BusOp
deriving DecidableEq, Repr

/-- The driver state for one display: the stored brightness level
(`self.brightness`, initialised to 7 in `__init__`, main.py line 10). The
pin objects are represented by the trace of operations instead. -/
structure TM1637 : Type where
  brightness : ℕ
deriving DecidableEq, Repr

/-- Method `TM1637.write(segments)` (main.py lines 38–49): returns the (unchanged)
driver state together with the bus operations issued, in order — start,
byte `0x40`, stop; start, byte `0xC0`, one byte per segment in order, stop;
start, byte `0x88 | brightness`, stop. -/
def TM1637.write (d : TM1637) (segments : List ℕ) : TM1637 × List BusOp :=
  (d,
    [BusOp.start, BusOp.byte 0x40, BusOp.stop, BusOp.start, BusOp.byte 0xC0] ++
      segments.map BusOp.byte ++
      [BusOp.stop, BusOp.start, BusOp.byte (0x88 ||| d.brightness), BusOp.stop])

/-- Parse the body of one transaction: the written bytes up to the matching
stop condition, returning those bytes and the remaining operations. Fails on
an unframed trace. -/
def txnBody : List BusOp → Option (List ℕ × List BusOp)
  | BusOp.stop :: rest => some ([], rest)
  | BusOp.byte b :: rest =>
      (txnBody rest).map fun p => (b :: p.1, p.2)
  | _ => none

/-- Split a bus trace into its framed transactions (fuelled recursion; the
fuel is an upper bound on the number of transactions). Returns `none` when
the trace is not a sequence of well-framed start/bytes/stop transactions. -/
def splitTxnsFuel : ℕ → List BusOp → Option (List (List ℕ))
  | _, [] => some []
  | 0, _ :: _ => none
  | fuel + 1, BusOp.start :: rest =>
      match txnBody rest with
      | some (bs, r) => (splitTxnsFuel fuel r).map fun ts => bs :: ts
      | none => none
  | _ + 1, BusOp.stop :: _ => none
  | _ + 1, BusOp.byte _ :: _ => none

/-- Split a bus trace into its framed transactions. -/
def splitTxns (l : List BusOp) : Option (List (List ℕ)) :=
  splitTxnsFuel l.length l

/-- C4. `TM1637.write` on a 4-entry frame issues exactly three framed
transactions, in order: (1) the byte `0x40`; (2) the byte `0xC0` followed by
the four segment bytes left to right with no intervening start/stop; (3) the
byte `0x88 | brightness`; and the stored brightness is read but never
mutated (the state returned by `write` is the input state, for any frame). -/
theorem tm1637_write_transactions (d : TM1637) (s0 s1 s2 s3 : ℕ) :
    splitTxns (d.write [s0, s1, s2, s3]).2 =
      some [[0x40], [0xC0, s0, s1, s2, s3], [0x88 ||| d.brightness]] ∧
    (d.write [s0, s1, s2, s3]).2 =
      [BusOp.start, BusOp.byte 0x40, BusOp.stop,
       BusOp.start, BusOp.byte 0xC0, BusOp.byte s0, BusOp.byte s1,
       BusOp.byte s2, BusOp.byte s3, BusOp.stop,
       BusOp.start, BusOp.byte (0x88 ||| d.brightness), BusOp.stop] ∧
    ∀ segments : List ℕ, (d.write segments).1 = d := by
  refine ⟨rfl, rfl, fun segments => rfl⟩

/-! ## Segment encoder (main.py lines 51–58) -/

/-- Digit-to-7-segment table (main.py lines 52–54). -/
def DIGITS : List ℕ :=
  [0x3F, 0x06, 0x5B, 0x4F, 0x66, 0x6D, 0x7D, 0x07, 0x7F, 0x6F]

/-- Degree symbol (main.py line 55). -/
def DEGREE : ℕ := 0x63

/-- Letter C (main.py line 56). -/
def C : ℕ := 0x39

/-- Minus sign (main.py line 57). -/
def DASH : ℕ := 0x40

/-- Letter E for Error (main.py line 58). -/
def E : ℕ := 0x79

/-- Python list indexing `l[i]` with an `int` index: nonnegative indices
from the front, negative indices from the end, `none` models `IndexError`. -/
def pyIndex (l : List ℕ) (i : ℤ) : Option ℕ :=
  if 0 ≤ i then l.get? i.toNat
  else if (-i).toNat ≤ l.length then l.get? (l.length - (-i).toNat) else none

/-- Python 3 `round` on an exact value: round half to even (banker's
rounding), otherwise to the nearest integer. -/
def pyRound (q : ℚ) : ℤ :=
  if Int.fract q = 1 / 2 then
    (if 2 ∣ ⌊q⌋ then ⌊q⌋ else ⌊q⌋ + 1)
  else round q

/-! ## Rendering (main.py lines 64–131) -/

/-- One externally visible action of the rendering / loop layer: a frame
written to a display (`true` = CPU display, `false` = GPU display), or a
`time.sleep` of the given number of seconds. -/
inductive Act : Type where
  | write : Bool → List ℕ → Act
  | sleepSec : ℚ → Act
deriving DecidableEq, Repr

/-- The `[E, DASH, DIGITS[tens], DIGITS[ones]]` frame computed by
`show_error` (main.py lines 86–88); `none` models the `IndexError` raised
when a digit index falls outside the 10-entry table. Indexing uses Python's
`//` and `%`, which on the nonnegative `error_code` agree with `Nat`
division and remainder. -/
def errorFrame (error_code : ℕ) : Option (List ℕ) :=
  match DIGITS.get? (error_code / 10), DIGITS.get? (error_code % 10) with
  | some t, some o => some [E, DASH, t, o]
  | _, _ => none

/-- Function `show_error(error_code)` (main.py lines 84–89): writes the error frame
to the CPU display and then to the GPU display; `none` models the
`IndexError` raised before any write when a digit lookup fails. -/
def show_error (error_code : ℕ) : Option (List Act) :=
  (errorFrame error_code).map fun f => [Act.write true f, Act.write false f]

/-- Function `show_status(code)` (main.py lines 64–82): for codes 1, 2, 3 writes
`[DIGITS[code], 0, 0, 0]` to both displays; any other code matches no
branch and produces no writes. The literal index into the 10-entry table
cannot fail, so `List.getD` is exact here. -/
def show_status (code : ℤ) : List Act :=
  if code = 1 then
    [Act.write true [DIGITS.getD 1 0, 0, 0, 0],
     Act.write false [DIGITS.getD 1 0, 0, 0, 0]]
  else if code = 2 then
    [Act.write true [DIGITS.getD 2 0, 0, 0, 0],
     Act.write false [DIGITS.getD 2 0, 0, 0, 0]]
  else if code = 3 then
    [Act.write true [DIGITS.getD 3 0, 0, 0, 0],
     Act.write false [DIGITS.getD 3 0, 0, 0, 0]]
  else []

/-- The frame written by `display_temp(display, temp)` (main.py lines
91–131) to its single target display; `none` models an `IndexError`
escaping the call (Python's `//` and `%` are `Int.fdiv` and `Int.fmod`).
In the two-digit branch the second entry is `DIGITS[tens] if tens > 0 else
0`, and the Python list literal evaluates that lookup before
`DIGITS[ones]`. -/
def display_temp (temp : ℚ) : Option (List ℕ) :=
  if temp = 0 then some [0, DASH, DASH, 0]
  else if temp < 0 ∨ temp > 999 then some [E, DASH, DASH, DASH]
  else
    let temp_int : ℤ := pyRound temp
    if temp ≥ 100 then
      let ti : ℤ := if temp_int > 999 then 999 else temp_int
      match pyIndex DIGITS (ti.fdiv 100),
          pyIndex DIGITS ((ti.fmod 100).fdiv 10),
          pyIndex DIGITS (ti.fmod 10) with
      | some h, some t, some o => some [h, t, o, 0]
      | _, _, _ => none
    else
      let tens : ℤ := temp_int.fdiv 10
      let ones : ℤ := temp_int.fmod 10
      match (if tens > 0 then pyIndex DIGITS tens else some 0),
          pyIndex DIGITS ones with
      | some t, some o => some [0, t, o, C]
      | _, _ => none

/-! ## Lemmas about the digit table, indexing and rounding -/

theorem DIGITS_get?_of_lt (n : ℕ) (h : n < 10) :
    DIGITS.get? n = some (DIGITS.getD n 0) := by
  interval_cases n <;> rfl

theorem pyIndex_DIGITS (i : ℤ) (h0 : 0 ≤ i) (h10 : i < 10) :
    pyIndex DIGITS i = some (DIGITS.getD i.toNat 0) := by
  rw [pyIndex, if_pos h0]
  exact DIGITS_get?_of_lt i.toNat (by omega)

theorem pyIndex_mem {l : List ℕ} {i : ℤ} {a : ℕ} (h : pyIndex l i = some a) :
    a ∈ l := by
  rw [pyIndex] at h
  split at h
  · exact List.get?_mem h
  · split at h
    · exact List.get?_mem h
    · cases h

/-- Python's `round` lands within one half of its argument (the nearest
integer, up to the tie-breaking convention). -/
theorem abs_sub_pyRound (q : ℚ) : |q - pyRound q| ≤ 1 / 2 := by
  rw [pyRound]
  split
  · rename_i hf
    rw [Int.fract] at hf
    split
    · rw [abs_le]
      constructor <;> linarith
    · rw [abs_le]
      constructor <;> · push_cast; linarith
  · exact abs_sub_round q

theorem pyRound_ge {q : ℚ} {n : ℤ} (h : (n : ℚ) ≤ q) : n ≤ pyRound q := by
  have hb := abs_le.mp (abs_sub_pyRound q)
  have : ((n : ℚ) : ℚ) - 1 < (pyRound q : ℚ) := by linarith
  have : (n : ℚ) < (pyRound q : ℚ) + 1 := by linarith
  have : n < pyRound q + 1 := by exact_mod_cast this
  omega

theorem pyRound_le {q : ℚ} {n : ℤ} (h : q ≤ (n : ℚ)) : pyRound q ≤ n := by
  have hb := abs_le.mp (abs_sub_pyRound q)
  have : (pyRound q : ℚ) < (n : ℚ) + 1 := by linarith
  have : pyRound q < n + 1 := by exact_mod_cast this
  omega

theorem pyRound_pos_nonneg {q : ℚ} (h : 0 < q) : 0 ≤ pyRound q := by
  have hb := abs_le.mp (abs_sub_pyRound q)
  have : (-1 : ℚ) < (pyRound q : ℚ) := by linarith
  have : (-1 : ℤ) < pyRound q := by exact_mod_cast this
  omega

theorem lt_100_of_pyRound_lt {q : ℚ} (h : pyRound q < 100) : q < 100 := by
  by_contra hq
  push_neg at hq
  have : (100 : ℤ) ≤ pyRound q := pyRound_ge (by exact_mod_cast hq)
  omega

/-- Unfolding of `display_temp` with its local bindings inlined. -/
theorem display_temp_eq (temp : ℚ) :
    display_temp temp =
      (if temp = 0 then some [0, DASH, DASH, 0]
      else if temp < 0 ∨ temp > 999 then some [E, DASH, DASH, DASH]
      else if temp ≥ 100 then
        (match pyIndex DIGITS
              ((if pyRound temp > 999 then 999 else pyRound temp).fdiv 100),
            pyIndex DIGITS
              (((if pyRound temp > 999 then 999 else pyRound temp).fmod 100).fdiv 10),
            pyIndex DIGITS
              ((if pyRound temp > 999 then 999 else pyRound temp).fmod 10) with
        | some h, some t, some o => some [h, t, o, 0]
        | _, _, _ => none)
      else
        (match (if (pyRound temp).fdiv 10 > 0 then
              pyIndex DIGITS ((pyRound temp).fdiv 10) else some 0),
            pyIndex DIGITS ((pyRound temp).fmod 10) with
        | some t, some o => some [0, t, o, C]
        | _, _ => none)) := rfl

/-- Python's `round(99.7)` is 100. -/
theorem pyRound_997 : pyRound (997 / 10 : ℚ) = 100 := by
  norm_num [pyRound, Int.fract, round_eq]

/-- Evaluation fact: `display_temp` raises `IndexError` (`DIGITS[10]`) at 99.7: the branch
guard uses the pre-rounding value, so 99.7 takes the two-digit branch but
rounds to 100, whose tens "digit" is 10. -/
theorem display_temp_997_eq_none : display_temp (997 / 10 : ℚ) = none := by
  rw [display_temp_eq, if_neg (by norm_num : ¬(997 / 10 : ℚ) = 0),
    if_neg (by norm_num : ¬((997 / 10 : ℚ) < 0 ∨ (997 / 10 : ℚ) > 999)),
    if_neg (by norm_num : ¬(997 / 10 : ℚ) ≥ 100), pyRound_997]
  decide

/-- C2 amended. For `0 < temp` with `round(temp) < 100`, `display_temp`
rounds to the nearest integer (within one half, banker's tie-breaking) and
writes the frame `[blank, tens pattern or blank when the tens digit is
zero, ones pattern, letter C]`. (The claim's full range `0 < temp < 100`
is refuted by `display_temp_997_raises`.) -/
theorem display_temp_two_digit (temp : ℚ) (h0 : 0 < temp)
    (h99 : pyRound temp < 100) :
    |temp - pyRound temp| ≤ 1 / 2 ∧ 0 ≤ pyRound temp ∧
    display_temp temp =
      some [0,
        (if (pyRound temp).fdiv 10 > 0 then
          DIGITS.getD ((pyRound temp).fdiv 10).toNat 0 else 0),
        DIGITS.getD ((pyRound temp).fmod 10).toNat 0,
        C] := by
  have h100 : temp < 100 := lt_100_of_pyRound_lt h99
  have hnn : 0 ≤ pyRound temp := pyRound_pos_nonneg h0
  refine ⟨abs_sub_pyRound temp, hnn, ?_⟩
  have hne : temp ≠ 0 := ne_of_gt h0
  have hnr : ¬(temp < 0 ∨ temp > 999) := by
    push_neg
    exact ⟨le_of_lt h0, by linarith⟩
  have hd : (pyRound temp).fdiv 10 = pyRound temp / 10 :=
    Int.fdiv_eq_ediv _ (by norm_num)
  have hm : (pyRound temp).fmod 10 = pyRound temp % 10 :=
    Int.fmod_eq_emod _ (by norm_num)
  have htb : 0 ≤ (pyRound temp).fdiv 10 ∧ (pyRound temp).fdiv 10 < 10 := by
    rw [hd]; omega
  have hob : 0 ≤ (pyRound temp).fmod 10 ∧ (pyRound temp).fmod 10 < 10 := by
    rw [hm]; omega
  rw [display_temp_eq, if_neg hne, if_neg hnr, if_neg (not_le.mpr h100)]
  by_cases htp : (pyRound temp).fdiv 10 > 0
  · rw [if_pos htp, if_pos htp, pyIndex_DIGITS _ htb.1 htb.2,
      pyIndex_DIGITS _ hob.1 hob.2]
  · rw [if_neg htp, if_neg htp, pyIndex_DIGITS _ hob.1 hob.2]

/-- C2 counterexample: 99.7 lies in the claim's open interval (0, 100) but
`display_temp` does not complete — the `DIGITS[10]` lookup raises. -/
theorem display_temp_997_raises :
    (0 : ℚ) < 997 / 10 ∧ (997 / 10 : ℚ) < 100 ∧
      display_temp (997 / 10 : ℚ) = none :=
  ⟨by norm_num, by norm_num, display_temp_997_eq_none⟩

/-- Witness for `display_temp_two_digit` at 72.4: rounds to 72 and writes
`[blank, digit 7, digit 2, letter C]`. -/
theorem display_temp_two_digit_witness :
    (0 : ℚ) < 724 / 10 ∧ pyRound (724 / 10 : ℚ) < 100 ∧
      display_temp (724 / 10 : ℚ) =
        some [0, DIGITS.getD 7 0, DIGITS.getD 2 0, C] := by
  have hr : pyRound (724 / 10 : ℚ) = 72 := by
    norm_num [pyRound, Int.fract, round_eq]
  have h := display_temp_two_digit (724 / 10) (by norm_num) (by rw [hr]; norm_num)
  refine ⟨by norm_num, by rw [hr]; norm_num, ?_⟩
  rw [h.2.2, hr]
  decide

/-- C3 amended. For `100 ≤ temp ≤ 999`, `display_temp` rounds to the
nearest integer — which stays within 100–999, so the clamp-to-999 never
fires — and writes `[hundreds, tens, ones, blank]` with no unit symbol.
`temp = 999.9` instead hits the `temp > 999` out-of-range guard
(`display_temp_9999_sentinel`). -/
theorem display_temp_hundreds (temp : ℚ) (h1 : 100 ≤ temp) (h2 : temp ≤ 999) :
    100 ≤ pyRound temp ∧ pyRound temp ≤ 999 ∧ |temp - pyRound temp| ≤ 1 / 2 ∧
    display_temp temp =
      some [DIGITS.getD ((pyRound temp).fdiv 100).toNat 0,
        DIGITS.getD (((pyRound temp).fmod 100).fdiv 10).toNat 0,
        DIGITS.getD ((pyRound temp).fmod 10).toNat 0,
        0] := by
  have hge : (100 : ℤ) ≤ pyRound temp := pyRound_ge (by exact_mod_cast h1)
  have hle : pyRound temp ≤ (999 : ℤ) := pyRound_le (by exact_mod_cast h2)
  refine ⟨hge, hle, abs_sub_pyRound temp, ?_⟩
  have hne : temp ≠ 0 := by
    intro h
    rw [h] at h1
    norm_num at h1
  have hnr : ¬(temp < 0 ∨ temp > 999) := by
    push_neg
    constructor <;> linarith
  rw [display_temp_eq, if_neg hne, if_neg hnr, if_pos (by linarith : temp ≥ 100)]
  have hcl : ¬ pyRound temp > 999 := not_lt.mpr hle
  simp only [if_neg hcl]
  have hdh : (pyRound temp).fdiv 100 = pyRound temp / 100 :=
    Int.fdiv_eq_ediv _ (by norm_num)
  have hdt : ((pyRound temp).fmod 100).fdiv 10 = pyRound temp % 100 / 10 := by
    rw [Int.fmod_eq_emod _ (by norm_num)]
    exact Int.fdiv_eq_ediv _ (by norm_num)
  have hmo : (pyRound temp).fmod 10 = pyRound temp % 10 :=
    Int.fmod_eq_emod _ (by norm_num)
  have hb1 : 0 ≤ (pyRound temp).fdiv 100 ∧ (pyRound temp).fdiv 100 < 10 := by
    rw [hdh]; omega
  have hb2 : 0 ≤ ((pyRound temp).fmod 100).fdiv 10 ∧
      ((pyRound temp).fmod 100).fdiv 10 < 10 := by
    rw [hdt]; omega
  have hb3 : 0 ≤ (pyRound temp).fmod 10 ∧ (pyRound temp).fmod 10 < 10 := by
    rw [hmo]; omega
  rw [pyIndex_DIGITS _ hb1.1 hb1.2, pyIndex_DIGITS _ hb2.1 hb2.2,
    pyIndex_DIGITS _ hb3.1 hb3.2]

/-- C3 counterexample: 999.9 is caught by the `temp > 999` out-of-range
guard before rounding, so it shows the `[E, -, -, -]` sentinel, not the
claimed clamped `[9, 9, 9, blank]`. -/
theorem display_temp_9999_sentinel :
    (9999 / 10 : ℚ) > 999 ∧
      display_temp (9999 / 10 : ℚ) = some [E, DASH, DASH, DASH] ∧
      some [E, DASH, DASH, DASH] ≠
        some [DIGITS.getD 9 0, DIGITS.getD 9 0, DIGITS.getD 9 0, (0 : ℕ)] := by
  refine ⟨by norm_num, ?_, by decide⟩
  rw [display_temp_eq, if_neg (by norm_num : ¬(9999 / 10 : ℚ) = 0),
    if_pos (by norm_num : ((9999 / 10 : ℚ) < 0 ∨ (9999 / 10 : ℚ) > 999))]

/-- Witness for `display_temp_hundreds` at 105.6: rounds to 106 and writes
`[digit 1, digit 0, digit 6, blank]`. -/
theorem display_temp_hundreds_witness :
    (100 : ℚ) ≤ 1056 / 10 ∧ (1056 / 10 : ℚ) ≤ 999 ∧
      display_temp (1056 / 10 : ℚ) =
        some [DIGITS.getD 1 0, DIGITS.getD 0 0, DIGITS.getD 6 0, 0] := by
  have hr : pyRound (1056 / 10 : ℚ) = 106 := by
    norm_num [pyRound, Int.fract, round_eq]
  have h := display_temp_hundreds (1056 / 10) (by norm_num) (by norm_num)
  refine ⟨by norm_num, by norm_num, ?_⟩
  rw [h.2.2.2, hr]
  decide



/-- C8. `display_temp` writes the no-reading sentinel `[blank, -, -,
blank]` exactly when `temp = 0`, and the out-of-range sentinel
`[E, -, -, -]` exactly when `temp < 0` or `temp > 999`; the zero check is
tested first, and in the sentinel branches no digit lookup happens. -/
theorem display_temp_sentinel_iff (temp : ℚ) :
    (display_temp temp = some [0, DASH, DASH, 0] ↔ temp = 0) ∧
    (display_temp temp = some [E, DASH, DASH, DASH] ↔ (temp < 0 ∨ temp > 999)) := by
  rw [display_temp_eq]
  by_cases hz : temp = 0
  · rw [if_pos hz]
    refine ⟨by simp [hz], ?_⟩
    constructor
    · intro h
      exfalso
      have h1 : (0 : ℕ) = E := (List.cons.inj (Option.some.inj h)).1
      rw [E] at h1
      omega
    · intro h
      subst hz
      rcases h with h | h <;> norm_num at h
  · rw [if_neg hz]
    by_cases hr : temp < 0 ∨ temp > 999
    · rw [if_pos hr]
      refine ⟨?_, by simp [hr]⟩
      constructor
      · intro h
        exfalso
        have h1 : E = (0 : ℕ) := (List.cons.inj (Option.some.inj h)).1
        rw [E] at h1
        omega
      · intro h
        exact absurd h hz
    · rw [if_neg hr]
      by_cases hh : temp ≥ 100
      · rw [if_pos hh]
        by_cases hcl : pyRound temp > 999
        · simp only [if_pos hcl]
          exact ⟨⟨fun h => absurd h (by decide), fun h => absurd h hz⟩,
            ⟨fun h => absurd h (by decide), fun h => absurd h hr⟩⟩
        · simp only [if_neg hcl]
          rcases hA : pyIndex DIGITS ((pyRound temp).fdiv 100) with _ | a
          · simp [hA, hz, hr]
          rcases hB : pyIndex DIGITS (((pyRound temp).fmod 100).fdiv 10) with _ | b
          · simp [hA, hB, hz, hr]
          rcases hC : pyIndex DIGITS ((pyRound temp).fmod 10) with _ | c
          · simp [hA, hB, hC, hz, hr]
          have hbm : b ∈ DIGITS := pyIndex_mem hB
          simp only [hA, hB, hC]
          refine ⟨⟨?_, fun h => absurd h hz⟩, ⟨?_, fun h => absurd h hr⟩⟩
          · intro h
            exfalso
            have h2 : b = DASH := (List.cons.inj (List.cons.inj (Option.some.inj h)).2).1
            rw [h2] at hbm
            revert hbm
            decide
          · intro h
            exfalso
            have h4 := (List.cons.inj (List.cons.inj (List.cons.inj
              (List.cons.inj (Option.some.inj h)).2).2).2).1
            rw [DASH] at h4
            omega
      · rw [if_neg hh]
        rcases hA : (if (pyRound temp).fdiv 10 > 0 then
            pyIndex DIGITS ((pyRound temp).fdiv 10) else some 0) with _ | a
        · simp [hA, hz, hr]
        rcases hB : pyIndex DIGITS ((pyRound temp).fmod 10) with _ | b
        · simp [hA, hB, hz, hr]
        simp only [hA, hB]
        refine ⟨⟨?_, fun h => absurd h hz⟩, ⟨?_, fun h => absurd h hr⟩⟩
        · intro h
          exfalso
          have h4 := (List.cons.inj (List.cons.inj (List.cons.inj
            (List.cons.inj (Option.some.inj h)).2).2).2).1
          rw [C] at h4
          omega
        · intro h
          exfalso
          have h1 : (0 : ℕ) = E := (List.cons.inj (Option.some.inj h)).1
          rw [E] at h1
          omega


/-- C7. For every code below 100, `show_error` writes the frame
`[letter E, dash, digit (code // 10), digit (code % 10)]` to the CPU
display and then to the GPU display, the two digits are each below 10, and
they recompose to the code. -/
theorem show_error_spec (error_code : ℕ) (h : error_code < 100) :
    show_error error_code = some
      [Act.write true
        [E, DASH, DIGITS.getD (error_code / 10) 0, DIGITS.getD (error_code % 10) 0],
       Act.write false
        [E, DASH, DIGITS.getD (error_code / 10) 0, DIGITS.getD (error_code % 10) 0]] ∧
    error_code / 10 < 10 ∧ error_code % 10 < 10 ∧
    (error_code / 10) * 10 + error_code % 10 = error_code := by
  have ht : error_code / 10 < 10 := by omega
  have ho : error_code % 10 < 10 := by omega
  refine ⟨?_, ht, ho, by omega⟩
  unfold show_error errorFrame
  rw [DIGITS_get?_of_lt _ ht, DIGITS_get?_of_lt _ ho]
  rfl

/-- Witness for `show_error_spec` at code 42. -/
theorem show_error_spec_witness :
    (42 : ℕ) < 100 ∧ show_error 42 = some
      [Act.write true [E, DASH, DIGITS.getD 4 0, DIGITS.getD 2 0],
       Act.write false [E, DASH, DIGITS.getD 4 0, DIGITS.getD 2 0]] := by
  have h := show_error_spec 42 (by decide)
  exact ⟨by decide, h.1⟩

/-- C10. `show_status` on any code other than 1, 2, 3 matches no branch:
no frame is written to either display and no bus traffic results. -/
theorem show_status_other_noop (code : ℤ) (h1 : code ≠ 1) (h2 : code ≠ 2)
    (h3 : code ≠ 3) :
    show_status code = [] := by
  rw [show_status, if_neg h1, if_neg h2, if_neg h3]

/-- Witness for `show_status_other_noop` at status code 5. -/
theorem show_status_other_noop_witness :
    (5 : ℤ) ≠ 1 ∧ (5 : ℤ) ≠ 2 ∧ (5 : ℤ) ≠ 3 ∧ show_status 5 = [] :=
  ⟨by decide, by decide, by decide,
    show_status_other_noop 5 (by decide) (by decide) (by decide)⟩

/-! ## Main loop (main.py lines 147–192) -/

/-- The mutable state of the main loop: `last_data_time` (the session
clock, main.py line 147) and the `error_shown` latch (line 148). -/
structure LoopState : Type where
  last_data_time : ℚ
  error_shown : Bool
deriving DecidableEq, Repr

/-- Python's `line.split(',')`: split a character list at every comma;
always returns at least one (possibly empty) field. -/
def splitComma : List Char → List (List Char)
  | [] => [[]]
  | c :: rest =>
      if c = ',' then [] :: splitComma rest
      else
        match splitComma rest with
        | [] => [[c]]
        | p :: ps => (c :: p) :: ps

theorem splitComma_ne_nil (l : List Char) : splitComma l ≠ [] := by
  induction l with
  | nil => simp [splitComma]
  | cons c rest ih =>
      rw [splitComma]
      split
      · simp
      · split
        · simp
        · simp

theorem splitComma_length_of_mem (l : List Char) (h : ',' ∈ l) :
    2 ≤ (splitComma l).length := by
  induction l with
  | nil => cases h
  | cons c rest ih =>
      rw [splitComma]
      rcases List.mem_cons.mp h with hc | hm
      · rw [if_pos hc.symm]
        have := splitComma_ne_nil rest
        have : 1 ≤ (splitComma rest).length := by
          cases hsr : splitComma rest
          · exact absurd hsr this
          · simp
        simp only [List.length_cons]
        omega
      · split
        · have := splitComma_ne_nil rest
          have h1 : 1 ≤ (splitComma rest).length := by
            cases hsr : splitComma rest
            · exact absurd hsr this
            · simp
          simp only [List.length_cons]
          omega
        · have h2 := ih hm
          cases hsr : splitComma rest with
          | nil => exact absurd hsr (splitComma_ne_nil rest)
          | cons p ps =>
              rw [hsr] at h2
              simpa using h2

/-- The line-processing step of one loop iteration (main.py lines 153–179):
read the pending line if any, check the separator, parse the two fields
with the abstract parser `parse` (standing for Python's `float`), and
render both temperatures.  Returns the display writes performed, and either
the updated state (`some`) or `none` when an exception escapes the
line-processing code (e.g. an `IndexError` out of `display_temp`): in that
case the writes performed before the raise are still reported and the
global state is unchanged.  `ValueError` from either `float` call is caught
by the inner `except` (line 172) and becomes error 10; a missing separator
becomes error 11 (line 178); both set the latch and leave the session
clock untouched. -/
def processLine (parse : List Char → Option ℚ) (st : LoopState)
    (input : Option (List Char)) (t1 : ℚ) : List Act × Option LoopState :=
  match input with
  | none => ([], some st)
  | some line =>
    if line = [] then ([], some st)
    else if ',' ∈ line then
      match (splitComma line).get? 0, (splitComma line).get? 1 with
      | some p0, some p1 =>
        match parse p0, parse p1 with
        | some cpu_temp, some gpu_temp =>
          match display_temp cpu_temp with
          | none => ([], none)
          | some fc =>
            match display_temp gpu_temp with
            | none => ([Act.write true fc], none)
            | some fg =>
              ([Act.write true fc, Act.write false fg],
                some { last_data_time := t1, error_shown := false })
        | _, _ =>
          match show_error 10 with
          | some acts => (acts, some { st with error_shown := true })
          | none => ([], none)
      | _, _ => ([], none)
    else
      match show_error 11 with
      | some acts => (acts, some { st with error_shown := true })
      | none => ([], none)

/-- The writes of the outer `except` handler (main.py line 191); the digit
lookups for code 99 cannot fail, so the `none` branch is unreachable. -/
def except99Acts : List Act :=
  match show_error 99 with
  | some acts => acts
  | none => []

/-- One full iteration of the `while True` loop (main.py lines 150–192):
line processing, then the 10-second timeout check (lines 182–185), then
the 0.1-second tail sleep (line 187); any exception out of the body is
caught by the outer handler (lines 189–192), which shows error 99 and
sleeps 1 second.  `t1` and `t2` are the values returned by the two
`time.time()` calls (lines 168 and 182). -/
def loopIter (parse : List Char → Option ℚ) (st : LoopState)
    (input : Option (List Char)) (t1 t2 : ℚ) : LoopState × List Act :=
  match processLine parse st input t1 with
  | (acts, some st1) =>
      if st1.error_shown = false ∧ 10 < t2 - st1.last_data_time then
        match show_error 20 with
        | some eacts =>
            ({ st1 with error_shown := true },
              acts ++ eacts ++ [Act.sleepSec (1 / 10)])
        | none => (st1, acts ++ except99Acts ++ [Act.sleepSec 1])
      else (st1, acts ++ [Act.sleepSec (1 / 10)])
  | (acts, none) => (st, acts ++ except99Acts ++ [Act.sleepSec 1])

/-- The frame shown for error 11 (no separator). -/
def err11Frame : List ℕ := [E, DASH, 0x06, 0x06]

/-- The frame shown for error 10 (parse failure). -/
def err10Frame : List ℕ := [E, DASH, 0x06, 0x3F]

/-- The frame shown for error 20 (timeout). -/
def err20Frame : List ℕ := [E, DASH, 0x5B, 0x3F]

/-- The frame shown for error 99 (unexpected failure). -/
def err99Frame : List ℕ := [E, DASH, 0x6F, 0x6F]

theorem show_error_11 :
    show_error 11 = some [Act.write true err11Frame, Act.write false err11Frame] := rfl

theorem show_error_10 :
    show_error 10 = some [Act.write true err10Frame, Act.write false err10Frame] := rfl

theorem show_error_20 :
    show_error 20 = some [Act.write true err20Frame, Act.write false err20Frame] := rfl

theorem except99Acts_eq :
    except99Acts = [Act.write true err99Frame, Act.write false err99Frame] := rfl
theorem display_temp_fourth (q : ℚ) (f : List ℕ) (h : display_temp q = some f) :
    f.get? 3 = some 0 ∨ f.get? 3 = some DASH ∨ f.get? 3 = some C := by
  rw [display_temp_eq] at h
  split_ifs at h
  · rw [← Option.some.inj h]
    left
    rfl
  · rw [← Option.some.inj h]
    right
    left
    rfl
  all_goals
    split at h
  any_goals cases h
  all_goals
    first
      | (left; rfl)
      | (right; right; rfl)

theorem display_temp_ne_err20 (q : ℚ) (f : List ℕ)
    (h : display_temp q = some f) : f ≠ err20Frame := by
  intro hf
  subst hf
  rcases display_temp_fourth q _ h with h4 | h4 | h4 <;> revert h4 <;> decide
/-- Case analysis of one line-processing step: it is an idle step, an
error-11 step, an error-10 step, a successful update, or an exception
whose pre-raise writes are at most the CPU-display frame. -/
theorem processLine_spec (parse : List Char → Option ℚ) (st : LoopState)
    (input : Option (List Char)) (t1 : ℚ) :
    processLine parse st input t1 = ([], some st) ∨
    processLine parse st input t1 =
      ([Act.write true err11Frame, Act.write false err11Frame],
        some ⟨st.last_data_time, true⟩) ∨
    processLine parse st input t1 =
      ([Act.write true err10Frame, Act.write false err10Frame],
        some ⟨st.last_data_time, true⟩) ∨
    (∃ fc fg cpu gpu, display_temp cpu = some fc ∧ display_temp gpu = some fg ∧
      processLine parse st input t1 =
        ([Act.write true fc, Act.write false fg], some ⟨t1, false⟩)) ∨
    ((processLine parse st input t1).2 = none ∧
      ((processLine parse st input t1).1 = [] ∨
        ∃ q fc, display_temp q = some fc ∧
          (processLine parse st input t1).1 = [Act.write true fc])) := by
  rcases input with _ | line
  · left
    rfl
  by_cases hE : line = []
  · left
    simp [processLine, hE]
  rw [processLine]
  simp only [if_neg hE]
  by_cases hc : ',' ∈ line
  · rw [if_pos hc]
    rcases h0 : (splitComma line).get? 0 with _ | p0
    · right; right; right; right
      simp [h0]
    rcases h1 : (splitComma line).get? 1 with _ | p1
    · right; right; right; right
      simp [h0, h1]
    simp only [h0, h1]
    rcases hp0 : parse p0 with _ | cpu
    · right; right; left
      simp [hp0, show_error_10]
    rcases hp1 : parse p1 with _ | gpu
    · right; right; left
      simp [hp0, hp1, show_error_10]
    rcases hdc : display_temp cpu with _ | fc
    · right; right; right; right
      constructor
      · simp [hp0, hp1, hdc]
      · left
        simp [hp0, hp1, hdc]
    rcases hdg : display_temp gpu with _ | fg
    · right; right; right; right
      constructor
      · simp [hp0, hp1, hdc, hdg]
      · right
        exact ⟨cpu, fc, hdc, by simp [hp0, hp1, hdc, hdg]⟩
    right; right; right; left
    refine ⟨fc, fg, cpu, gpu, hdc, hdg, ?_⟩
    simp [hp0, hp1, hdc, hdg]
  · rw [if_neg hc]
    right; left
    rw [show_error_11]
/-- C6. For a non-empty input line: with no separator the iteration shows
error 11, sets the latch and leaves the session clock unchanged; with a
separator, the comma split always yields at least two fields, and if the
abstract float parser rejects either of the first two fields the iteration
shows error 10, sets the latch and leaves the session clock unchanged. -/
theorem line_errors (parse : List Char → Option ℚ) (st : LoopState)
    (line : List Char) (t1 t2 : ℚ) (hne : line ≠ []) :
    (¬ ',' ∈ line →
      loopIter parse st (some line) t1 t2 =
        ({ last_data_time := st.last_data_time, error_shown := true },
          [Act.write true err11Frame, Act.write false err11Frame,
            Act.sleepSec (1 / 10)])) ∧
    (',' ∈ line → 2 ≤ (splitComma line).length) ∧
    (∀ p0 p1, ',' ∈ line →
      (splitComma line).get? 0 = some p0 →
      (splitComma line).get? 1 = some p1 →
      (parse p0 = none ∨ parse p1 = none) →
      loopIter parse st (some line) t1 t2 =
        ({ last_data_time := st.last_data_time, error_shown := true },
          [Act.write true err10Frame, Act.write false err10Frame,
            Act.sleepSec (1 / 10)])) := by
  refine ⟨?_, fun hc => splitComma_length_of_mem line hc, ?_⟩
  · intro hc
    have hP : processLine parse st (some line) t1 =
        ([Act.write true err11Frame, Act.write false err11Frame],
          some ⟨st.last_data_time, true⟩) := by
      rw [processLine]
      simp only [if_neg hne, if_neg hc, show_error_11]
    simp [loopIter, hP]
  · intro p0 p1 hc h0 h1 hfail
    have hP : processLine parse st (some line) t1 =
        ([Act.write true err10Frame, Act.write false err10Frame],
          some ⟨st.last_data_time, true⟩) := by
      rw [processLine]
      simp only [if_neg hne, if_pos hc, h0, h1]
      rcases hfail with hf | hf
      · simp [hf, show_error_10]
      · rcases hp0 : parse p0 with _ | c <;> simp [hp0, hf, show_error_10]
    simp [loopIter, hP]
/-- A concrete instance of the abstract field parser, agreeing with
Python's `float` on the strings it recognises (`float("99.7")` rounds to
the IEEE double nearest 99.7, which `display_temp` treats identically to
the exact 99.7; `float("50")` is exactly 50). -/
def parseEx : List Char → Option ℚ :=
  fun l =>
    if l = ['9', '9', '.', '7'] then some (997 / 10)
    else if l = ['5', '0'] then some 50
    else none

/-- The line `"99.7,50"` parses, but rendering the CPU temperature 99.7
raises `IndexError` out of `display_temp` before any write: line
processing ends in the exception outcome with no writes performed and the
state untouched. -/
theorem processLine_997_50 (st : LoopState) (t1 : ℚ) :
    processLine parseEx st (some ['9', '9', '.', '7', ',', '5', '0']) t1 =
      ([], none) := by
  have hsplit : splitComma ['9', '9', '.', '7', ',', '5', '0'] =
      [['9', '9', '.', '7'], ['5', '0']] := by decide
  rw [processLine]
  rw [if_neg (by decide : ¬(['9', '9', '.', '7', ',', '5', '0'] : List Char) = [])]
  rw [if_pos (by decide : ',' ∈ (['9', '9', '.', '7', ',', '5', '0'] : List Char))]
  rw [hsplit]
  simp only [List.get?]
  rw [show parseEx ['9', '9', '.', '7'] = some (997 / 10) from rfl,
    show parseEx ['5', '0'] = some 50 from rfl]
  simp [display_temp_997_eq_none]
/-- Witness for `line_errors`: the no-comma line `"45.0"` yields error 11;
the line `"ab,50"` (first field unparseable) yields error 10; both leave
the session clock at its old value 3. -/
theorem line_errors_witness :
    (['4', '5', '.', '0'] : List Char) ≠ [] ∧
    loopIter parseEx ⟨3, false⟩ (some ['4', '5', '.', '0']) 7 8 =
      ({ last_data_time := 3, error_shown := true },
        [Act.write true err11Frame, Act.write false err11Frame,
          Act.sleepSec (1 / 10)]) ∧
    loopIter parseEx ⟨3, false⟩ (some ['a', 'b', ',', '5', '0']) 7 8 =
      ({ last_data_time := 3, error_shown := true },
        [Act.write true err10Frame, Act.write false err10Frame,
          Act.sleepSec (1 / 10)]) := by
  refine ⟨by decide, ?_, ?_⟩
  · exact (line_errors parseEx ⟨3, false⟩ ['4', '5', '.', '0'] 7 8
      (by decide)).1 (by decide)
  · exact (line_errors parseEx ⟨3, false⟩ ['a', 'b', ',', '5', '0'] 7 8
      (by decide)).2.2 ['a', 'b'] ['5', '0'] (by decide) (by decide) (by decide)
      (Or.inl rfl)
/-- C5 amended. An error-20 display call happens in an iteration exactly
when line processing completed without an unexpected failure and, at the
check, the latch is clear and more than 10 seconds have elapsed since the
session clock was last reset; the call sets the latch; an idle iteration
with the latch set does nothing but sleep; and the latch goes from set to
clear only through a successful temperature update, which also resets the
session clock to the update time.  (The claim's unconditional reading of
the check is refuted by `timeout_skipped_on_exception`: an iteration whose
line processing raises skips the timeout check.) -/
theorem error20_iff (parse : List Char → Option ℚ) (st : LoopState)
    (input : Option (List Char)) (t1 t2 : ℚ) :
    (Act.write true err20Frame ∈ (loopIter parse st input t1 t2).2 ↔
      (∃ a1 st1, processLine parse st input t1 = (a1, some st1) ∧
        st1.error_shown = false ∧ 10 < t2 - st1.last_data_time)) ∧
    (Act.write true err20Frame ∈ (loopIter parse st input t1 t2).2 →
      (loopIter parse st input t1 t2).1.error_shown = true) ∧
    (input = none → st.error_shown = true →
      loopIter parse st input t1 t2 = (st, [Act.sleepSec (1 / 10)])) ∧
    (st.error_shown = true →
      (loopIter parse st input t1 t2).1.error_shown = false →
      ((loopIter parse st input t1 t2).1.last_data_time = t1 ∧
        ∃ fc fg cpu gpu,
          display_temp cpu = some fc ∧ display_temp gpu = some fg ∧
          (loopIter parse st input t1 t2).2 =
            [Act.write true fc, Act.write false fg, Act.sleepSec (1 / 10)])) := by
  rcases processLine_spec parse st input t1 with hA | hB | hC |
    ⟨fc, fg, cpu, gpu, hdc, hdg, hD⟩ | ⟨hE2, hE1⟩
  · -- idle line-processing step
    by_cases hcond : st.error_shown = false ∧ 10 < t2 - st.last_data_time
    · have hL : loopIter parse st input t1 t2 =
          ({ st with error_shown := true },
            [Act.write true err20Frame, Act.write false err20Frame,
              Act.sleepSec (1 / 10)]) := by
        simp [loopIter, hA, show_error_20, hcond]
      refine ⟨?_, ?_, ?_, ?_⟩
      · rw [hL]
        exact ⟨fun _ => ⟨[], st, hA, hcond.1, hcond.2⟩, fun _ => by simp⟩
      · intro _
        rw [hL]
      · intro _ hst
        rw [hst] at hcond
        simp at hcond
      · intro hst hfin
        rw [hL] at hfin
        simp at hfin
    · have hL : loopIter parse st input t1 t2 =
          (st, [Act.sleepSec (1 / 10)]) := by
        simp [loopIter, hA, hcond]
      refine ⟨?_, ?_, ?_, ?_⟩
      · rw [hL]
        constructor
        · intro hmem
          simp at hmem
        · rintro ⟨a1, st1, heq, hes, ht⟩
          rw [hA] at heq
          injection heq with h1 h2
          injection h2 with h2
          subst h2
          exact absurd ⟨hes, ht⟩ hcond
      · intro hmem
        rw [hL] at hmem
        simp at hmem
      · intro _ _
        exact hL
      · intro hst hfin
        rw [hL] at hfin
        exact absurd hfin (by simp [hst])
  · -- error-11 step
    have hL : loopIter parse st input t1 t2 =
        (⟨st.last_data_time, true⟩,
          [Act.write true err11Frame, Act.write false err11Frame,
            Act.sleepSec (1 / 10)]) := by
      simp [loopIter, hB]
    refine ⟨?_, ?_, ?_, ?_⟩
    · rw [hL]
      constructor
      · intro hmem
        simp [err11Frame, err20Frame] at hmem
      · rintro ⟨a1, st1, heq, hes, _⟩
        rw [hB] at heq
        injection heq with h1 h2
        injection h2 with h2
        subst h2
        simp at hes
    · intro hmem
      rw [hL] at hmem
      simp [err11Frame, err20Frame] at hmem
    · intro hin _
      subst hin
      simp [processLine] at hB
    · intro hst hfin
      rw [hL] at hfin
      simp at hfin
  · -- error-10 step
    have hL : loopIter parse st input t1 t2 =
        (⟨st.last_data_time, true⟩,
          [Act.write true err10Frame, Act.write false err10Frame,
            Act.sleepSec (1 / 10)]) := by
      simp [loopIter, hC]
    refine ⟨?_, ?_, ?_, ?_⟩
    · rw [hL]
      constructor
      · intro hmem
        simp [err10Frame, err20Frame] at hmem
      · rintro ⟨a1, st1, heq, hes, _⟩
        rw [hC] at heq
        injection heq with h1 h2
        injection h2 with h2
        subst h2
        simp at hes
    · intro hmem
      rw [hL] at hmem
      simp [err10Frame, err20Frame] at hmem
    · intro hin _
      subst hin
      simp [processLine] at hC
    · intro hst hfin
      rw [hL] at hfin
      simp at hfin
  · -- successful update
    have hfc : fc ≠ err20Frame := display_temp_ne_err20 cpu fc hdc
    by_cases hcond : (10 : ℚ) < t2 - t1
    · have hL : loopIter parse st input t1 t2 =
          (⟨t1, true⟩,
            [Act.write true fc, Act.write false fg,
              Act.write true err20Frame, Act.write false err20Frame,
              Act.sleepSec (1 / 10)]) := by
        simp [loopIter, hD, show_error_20, hcond]
      refine ⟨?_, ?_, ?_, ?_⟩
      · rw [hL]
        refine ⟨fun _ => ⟨_, ⟨t1, false⟩, hD, rfl, hcond⟩, fun _ => by simp⟩
      · intro _
        rw [hL]
      · intro hin _
        subst hin
        simp [processLine] at hD
      · intro hst hfin
        rw [hL] at hfin
        simp at hfin
    · have hL : loopIter parse st input t1 t2 =
          (⟨t1, false⟩,
            [Act.write true fc, Act.write false fg, Act.sleepSec (1 / 10)]) := by
        simp [loopIter, hD, hcond]
      refine ⟨?_, ?_, ?_, ?_⟩
      · rw [hL]
        constructor
        · intro hmem
          simp at hmem
          exact (hfc hmem.symm).elim
        · rintro ⟨a1, st1, heq, hes, ht⟩
          rw [hD] at heq
          injection heq with h1 h2
          injection h2 with h2
          subst h2
          exact absurd ht hcond
      · intro hmem
        rw [hL] at hmem
        simp at hmem
        exact absurd hmem.symm hfc
      · intro hin _
        subst hin
        simp [processLine] at hD
      · intro hst hfin
        refine ⟨by rw [hL], fc, fg, cpu, gpu, hdc, hdg, by rw [hL]⟩
  · -- exception step
    rcases hP : processLine parse st input t1 with ⟨a1, r1⟩
    rw [hP] at hE2 hE1
    simp only at hE2 hE1
    subst hE2
    have hL : loopIter parse st input t1 t2 =
        (st, a1 ++ except99Acts ++ [Act.sleepSec 1]) := by
      simp [loopIter, hP]
    have hnm : Act.write true err20Frame ∉ (loopIter parse st input t1 t2).2 := by
      rw [hL]
      rcases hE1 with h1 | ⟨q, fc, hq, h1⟩ <;> subst h1
      · simp [except99Acts_eq, err99Frame, err20Frame]
      · have hfc : fc ≠ err20Frame := display_temp_ne_err20 q fc hq
        simp [except99Acts_eq, err99Frame, err20Frame]
        exact fun h => hfc h.symm
    refine ⟨?_, ?_, ?_, ?_⟩
    · refine ⟨fun hmem => absurd hmem hnm, ?_⟩
      rintro ⟨a1', st1, heq, _, _⟩
      injection heq with h1 h2
      cases h2
    · intro hmem
      exact absurd hmem hnm
    · intro hin _
      subst hin
      simp [processLine] at hP
    · intro hst hfin
      rw [hL] at hfin
      exact absurd hfin (by simp [hst])
/-- Witness for `error20_iff`: an idle iteration 11 seconds after the last
update with the latch clear shows error 20 and sets the latch. -/
theorem error20_iff_witness :
    Act.write true err20Frame ∈ (loopIter parseEx ⟨0, false⟩ none 0 11).2 ∧
    (loopIter parseEx ⟨0, false⟩ none 0 11).1.error_shown = true := by
  have h := error20_iff parseEx ⟨0, false⟩ none 0 11
  have hmem : Act.write true err20Frame ∈
      (loopIter parseEx ⟨0, false⟩ none 0 11).2 :=
    h.1.mpr ⟨[], ⟨0, false⟩, rfl, rfl, by norm_num⟩
  exact ⟨hmem, h.2.1 hmem⟩

/-- C5 counterexample: on the line `"99.7,50"`, with the latch clear and
the session clock 11 seconds stale, the iteration raises inside
`display_temp` and the outer handler runs instead of the timeout check —
error 99 is shown, no error-20 call happens, and the latch stays clear —
refuting the claim that error 20 fires whenever the latch is clear and
more than 10 seconds have elapsed. -/
theorem timeout_skipped_on_exception :
    loopIter parseEx ⟨0, false⟩ (some ['9', '9', '.', '7', ',', '5', '0']) 11 11 =
      (⟨0, false⟩,
        [Act.write true err99Frame, Act.write false err99Frame,
          Act.sleepSec 1]) ∧
    (10 : ℚ) < 11 - (0 : ℚ) ∧
    Act.write true err20Frame ∉
      (loopIter parseEx ⟨0, false⟩
        (some ['9', '9', '.', '7', ',', '5', '0']) 11 11).2 := by
  have hP := processLine_997_50 (⟨0, false⟩ : LoopState) 11
  have hL : loopIter parseEx ⟨0, false⟩
      (some ['9', '9', '.', '7', ',', '5', '0']) 11 11 =
      (⟨0, false⟩, [] ++ except99Acts ++ [Act.sleepSec 1]) := by
    simp [loopIter, hP]
  refine ⟨?_, by norm_num, ?_⟩
  · rw [hL]
    simp [except99Acts_eq]
  · rw [hL]
    simp [except99Acts_eq, err99Frame, err20Frame]

/-- C9. Whenever line processing raises an unexpected failure, the
iteration is caught at the loop boundary: the writes performed before the
raise are followed by the error-99 frame on both displays and a 1-second
sleep, the loop state is unchanged, and the iteration returns normally so
the loop continues. -/
theorem unexpected_failure_contained (parse : List Char → Option ℚ)
    (st : LoopState) (input : Option (List Char)) (t1 t2 : ℚ)
    (h : (processLine parse st input t1).2 = none) :
    loopIter parse st input t1 t2 =
      (st, (processLine parse st input t1).1 ++
        [Act.write true err99Frame, Act.write false err99Frame,
          Act.sleepSec 1]) := by
  rcases hP : processLine parse st input t1 with ⟨a1, r1⟩
  rw [hP] at h
  simp only at h
  subst h
  simp [loopIter, hP, except99Acts_eq]

/-- Witness for `unexpected_failure_contained` at the raising line
`"99.7,50"`. -/
theorem unexpected_failure_contained_witness :
    (processLine parseEx ⟨5, false⟩
      (some ['9', '9', '.', '7', ',', '5', '0']) 6).2 = none ∧
    loopIter parseEx ⟨5, false⟩
      (some ['9', '9', '.', '7', ',', '5', '0']) 6 7 =
      (⟨5, false⟩,
        [Act.write true err99Frame, Act.write false err99Frame,
          Act.sleepSec 1]) := by
  have hP := processLine_997_50 (⟨5, false⟩ : LoopState) 6
  have h2 : (processLine parseEx ⟨5, false⟩
      (some ['9', '9', '.', '7', ',', '5', '0']) 6).2 = none := by
    rw [hP]
  refine ⟨h2, ?_⟩
  have h := unexpected_failure_contained parseEx ⟨5, false⟩
    (some ['9', '9', '.', '7', ',', '5', '0']) 6 7 h2
  rw [h, hP]
  simp
